import Mathlib

/-!
# Clock sequencing in two SoC drivers

Shallow embedding of

* `drivers/phy/sophgo/phy-cv1800-usb.c` (USB PHY bring-up, roll-back, role select), and
* `drivers/cpufreq/spacemit-cpufreq.c` (cpufreq policy / transition notifiers).

The kernel clock, device-tree and MMIO services are external to both files.  Every
call into them is appended to a trace; the values they return are supplied by an
environment record.  Machine integers are `Nat`/`Int` with an explicit modulus
where a C operation can wrap.
-/

/-! ## Part 1: `phy-cv1800-usb.c` -/

namespace CV1800

/-- A `struct clk *` handle, identified with the clock it refers to. -/
abbrev Clk := Nat

/-- A `void __iomem *` address. -/
abbrev IoAddr := Nat

/-- Modelled from the spec: the kernel macro `BIT(n)` (bit `n` set), not part of the
driver source. -/
def BIT (n : Nat) : Nat := 1 <<< n

def CV1800_PIN_ID_OVERWRITE_EN : Nat := BIT 6

def CV1800_PIN_ID_OVERWRITE_VALUE (v : Nat) : Nat := v <<< 7

/-- The C `enum cv1800_usb_phy_role`. -/
inductive cv1800_usb_phy_role where
  | CV1800_USB_PHY_HOST
  | CV1800_USB_PHY_DEVICE
deriving DecidableEq, Repr

open cv1800_usb_phy_role

/-- Integer value of an enumerator (`HOST = 0`, `DEVICE = 1`). -/
def cv1800_usb_phy_role.val : cv1800_usb_phy_role → Nat
  | CV1800_USB_PHY_HOST => 0
  | CV1800_USB_PHY_DEVICE => 1

/-- The C `struct cv1800_usb_phy_priv`. -/
structure cv1800_usb_phy_priv where
  regs : IoAddr
  pinreg : IoAddr
  clk_axi : Clk
  clk_apb : Clk
  clk_125m : Clk
  clk_33k : Clk
  clk_12m : Clk
  role : cv1800_usb_phy_role
deriving DecidableEq, Repr

/-- Calls made by `init`/`exit` into the clock framework and the MMIO layer.
`clk_prepare_enable` is recorded together with the value it returned. -/
inductive PhyCall where
  | clk_prepare_enable (clk : Clk) (ret : Int)
  | clk_disable_unprepare (clk : Clk)
  | writel (val : Nat) (addr : IoAddr)
deriving DecidableEq, Repr

/-- State of the clock framework as seen by the PHY driver.
`enable_result n` is what the `n`-th call of `clk_prepare_enable` returns
(`0` on success, a negative errno otherwise); `n_enable` counts the calls made so far;
`enable_count` is the prepare/enable reference count of every clock. -/
structure PhyWorld where
  enable_count : Clk → Nat
  enable_result : Nat → Int
  n_enable : Nat
  trace : List PhyCall

/-- Modelled from the spec: the clock provider's `enable` (`clk_prepare_enable`), not
part of the driver source.  A successful call takes one enable reference, a failing
call leaves the clock as it was. -/
def clk_prepare_enable (clk : Clk) (w : PhyWorld) : Int × PhyWorld :=
  let ret := w.enable_result w.n_enable
  (ret,
   { w with
     enable_count := fun c => if c = clk ∧ ret = 0 then w.enable_count c + 1 else w.enable_count c
     n_enable := w.n_enable + 1
     trace := w.trace ++ [PhyCall.clk_prepare_enable clk ret] })

/-- Modelled from the spec: the clock provider's `disable` (`clk_disable_unprepare`),
not part of the driver source.  It drops one enable reference (a clock whose count is
already zero stays at zero). -/
def clk_disable_unprepare (clk : Clk) (w : PhyWorld) : PhyWorld :=
  { w with
    enable_count := fun c => if c = clk then w.enable_count c - 1 else w.enable_count c
    trace := w.trace ++ [PhyCall.clk_disable_unprepare clk] }

/-- Modelled from the spec: register I/O `write32` (`writel`), not part of the driver
source: a 32-bit store. -/
def writel (val : Nat) (addr : IoAddr) (w : PhyWorld) : PhyWorld :=
  { w with trace := w.trace ++ [PhyCall.writel (val % 2 ^ 32) addr] }

def cv1800_usb_phy_set_role (priv : cv1800_usb_phy_priv) (role : cv1800_usb_phy_role)
    (w : PhyWorld) : PhyWorld :=
  writel (CV1800_PIN_ID_OVERWRITE_EN ||| CV1800_PIN_ID_OVERWRITE_VALUE role.val) priv.pinreg w

/-- Label `err_clk_axi:` of `cv1800_usb_phy_init`. -/
def err_clk_axi (ret : Int) (w : PhyWorld) : Int × PhyWorld := (ret, w)

/-- Label `err_clk_apb:` (falls through to `err_clk_axi`). -/
def err_clk_apb (priv : cv1800_usb_phy_priv) (ret : Int) (w : PhyWorld) : Int × PhyWorld :=
  err_clk_axi ret (clk_disable_unprepare priv.clk_axi w)

/-- Label `err_clk_125m:` (falls through to `err_clk_apb`). -/
def err_clk_125m (priv : cv1800_usb_phy_priv) (ret : Int) (w : PhyWorld) : Int × PhyWorld :=
  err_clk_apb priv ret (clk_disable_unprepare priv.clk_apb w)

/-- Label `err_clk_33k:` (falls through to `err_clk_125m`). -/
def err_clk_33k (priv : cv1800_usb_phy_priv) (ret : Int) (w : PhyWorld) : Int × PhyWorld :=
  err_clk_125m priv ret (clk_disable_unprepare priv.clk_125m w)

/-- Label `err_clk_12m:` (falls through to `err_clk_33k`). -/
def err_clk_12m (priv : cv1800_usb_phy_priv) (ret : Int) (w : PhyWorld) : Int × PhyWorld :=
  err_clk_33k priv ret (clk_disable_unprepare priv.clk_33k w)

def cv1800_usb_phy_init (priv : cv1800_usb_phy_priv) (w : PhyWorld) : Int × PhyWorld :=
  let r1 := clk_prepare_enable priv.clk_axi w
  if r1.1 ≠ 0 then err_clk_axi r1.1 r1.2 else
  let r2 := clk_prepare_enable priv.clk_apb r1.2
  if r2.1 ≠ 0 then err_clk_apb priv r2.1 r2.2 else
  let r3 := clk_prepare_enable priv.clk_125m r2.2
  if r3.1 ≠ 0 then err_clk_125m priv r3.1 r3.2 else
  let r4 := clk_prepare_enable priv.clk_33k r3.2
  if r4.1 ≠ 0 then err_clk_33k priv r4.1 r4.2 else
  let r5 := clk_prepare_enable priv.clk_12m r4.2
  if r5.1 ≠ 0 then err_clk_12m priv r5.1 r5.2 else
  (0, cv1800_usb_phy_set_role priv priv.role r5.2)

def cv1800_usb_phy_exit (priv : cv1800_usb_phy_priv) (w : PhyWorld) : Int × PhyWorld :=
  let w := clk_disable_unprepare priv.clk_33k w
  let w := clk_disable_unprepare priv.clk_125m w
  let w := clk_disable_unprepare priv.clk_apb w
  let w := clk_disable_unprepare priv.clk_axi w
  (0, w)

/-- The clocks of a PHY instance in the order in which `init` enables them. -/
def init_order (priv : cv1800_usb_phy_priv) : List Clk :=
  [priv.clk_axi, priv.clk_apb, priv.clk_125m, priv.clk_33k, priv.clk_12m]

/-! ### Probe path -/

/-- Modelled from the spec: errno constant `EINVAL` of the kernel headers (not in the
driver source), the "configuration error" code. -/
def EINVAL : Int := 22

/-- Modelled from the spec: errno constant `ENOMEM` of the kernel headers (not in the
driver source). -/
def ENOMEM : Int := 12

/-- Modelled from the spec: the C library `strcmp`, not part of the driver source, on
strings given by their characters before the terminating NUL.  Only whether the result
is zero is used by the driver. -/
def strcmp : List Char → List Char → Int
  | [], [] => 0
  | [], b :: _ => 0 - (b.toNat : Int)
  | a :: _, [] => (a.toNat : Int)
  | a :: as, b :: bs => if a = b then strcmp as bs else (a.toNat : Int) - (b.toNat : Int)

/-- What the platform answers to the requests `probe` makes on a `struct device`.
A pointer-returning service yields `Except.error e` for `ERR_PTR(e)`;
`of_property_read_string` yields `none` when it returns non-zero. -/
structure device where
  devm_kzalloc : Bool
  of_property_read_string : String → Option String
  devm_platform_ioremap_resource_byname : String → Except Int IoAddr
  devm_clk_get : String → Except Int Clk
  devm_phy_create : Except Int Nat
  devm_of_phy_provider_register : Except Int Nat

def cv1800b_usb_phy_parse_dt (priv : cv1800_usb_phy_priv) (dev : device) :
    Int × cv1800_usb_phy_priv :=
  match dev.of_property_read_string "dr_role" with
  | some role =>
    if strcmp role.toList "host".toList = 0 then
      (0, { priv with role := CV1800_USB_PHY_HOST })
    else if strcmp role.toList "device".toList = 0 then
      (0, { priv with role := CV1800_USB_PHY_DEVICE })
    else
      (-EINVAL, priv)
  | none => (0, { priv with role := CV1800_USB_PHY_DEVICE })

/-- Requests issued by `probe`, in program order. -/
inductive ProbeCall where
  | devm_platform_ioremap_resource_byname (name : String)
  | devm_clk_get (id : String)
  | devm_phy_create
  | devm_of_phy_provider_register
  | phy_set_drvdata (priv : cv1800_usb_phy_priv)
deriving DecidableEq, Repr

/-- A zero-filled private structure, as returned by `devm_kzalloc`. -/
def priv_zero : cv1800_usb_phy_priv :=
  { regs := 0, pinreg := 0, clk_axi := 0, clk_apb := 0, clk_125m := 0, clk_33k := 0,
    clk_12m := 0, role := CV1800_USB_PHY_HOST }

def cv1800_usb_phy_probe (dev : device) : Int × List ProbeCall :=
  if dev.devm_kzalloc = false then (-ENOMEM, []) else
  let priv := priv_zero
  let r := cv1800b_usb_phy_parse_dt priv dev
  if r.1 ≠ 0 then (r.1, []) else
  let priv := r.2
  let tr := [ProbeCall.devm_platform_ioremap_resource_byname "phy-reg"]
  match dev.devm_platform_ioremap_resource_byname "phy-reg" with
  | .error e => (e, tr)
  | .ok regs =>
  let priv := { priv with regs := regs }
  let tr := tr ++ [ProbeCall.devm_platform_ioremap_resource_byname "pin-reg"]
  match dev.devm_platform_ioremap_resource_byname "pin-reg" with
  | .error e => (e, tr)
  | .ok pinreg =>
  let priv := { priv with pinreg := pinreg }
  let tr := tr ++ [ProbeCall.devm_clk_get "clk_axi"]
  match dev.devm_clk_get "clk_axi" with
  | .error e => (e, tr)
  | .ok c =>
  let priv := { priv with clk_axi := c }
  let tr := tr ++ [ProbeCall.devm_clk_get "clk_apb"]
  match dev.devm_clk_get "clk_apb" with
  | .error e => (e, tr)
  | .ok c =>
  let priv := { priv with clk_apb := c }
  let tr := tr ++ [ProbeCall.devm_clk_get "clk_125m"]
  match dev.devm_clk_get "clk_125m" with
  | .error e => (e, tr)
  | .ok c =>
  let priv := { priv with clk_125m := c }
  let tr := tr ++ [ProbeCall.devm_clk_get "clk_125m"]
  match dev.devm_clk_get "clk_125m" with
  | .error e => (e, tr)
  | .ok c =>
  let priv := { priv with clk_33k := c }
  let tr := tr ++ [ProbeCall.devm_clk_get "clk_12m"]
  match dev.devm_clk_get "clk_12m" with
  | .error e => (e, tr)
  | .ok c =>
  let priv := { priv with clk_12m := c }
  let tr := tr ++ [ProbeCall.devm_phy_create]
  match dev.devm_phy_create with
  | .error e => (e, tr)
  | .ok _ =>
  let tr := tr ++ [ProbeCall.devm_of_phy_provider_register]
  let tr := tr ++ [ProbeCall.phy_set_drvdata priv]
  match dev.devm_of_phy_provider_register with
  | .error e => (e, tr)
  | .ok _ => (0, tr)

/-- The clock names requested through `devm_clk_get`, in program order. -/
def clk_names_requested : List ProbeCall → List String
  | [] => []
  | ProbeCall.devm_clk_get id :: rest => id :: clk_names_requested rest
  | _ :: rest => clk_names_requested rest

/-- A PHY instance with five different clocks, DEVICE role. -/
def priv_example : cv1800_usb_phy_priv :=
  { regs := 0x1000, pinreg := 0x2000, clk_axi := 1, clk_apb := 2, clk_125m := 3, clk_33k := 4,
    clk_12m := 5, role := CV1800_USB_PHY_DEVICE }

/-- No clock enabled; the third `clk_prepare_enable` fails with `-5`. -/
def world_fail_third : PhyWorld :=
  { enable_count := fun _ => 0
    enable_result := fun n => if n = 2 then -5 else 0
    n_enable := 0
    trace := [] }

/-- No clock enabled; every `clk_prepare_enable` succeeds. -/
def world_all_ok : PhyWorld :=
  { enable_count := fun _ => 0
    enable_result := fun _ => 0
    n_enable := 0
    trace := [] }

/-- A device whose "dr_role" property is "host". -/
def dev_host : device :=
  { devm_kzalloc := true
    of_property_read_string := fun name => if name = "dr_role" then some "host" else none
    devm_platform_ioremap_resource_byname := fun _ => .ok 0x1000
    devm_clk_get := fun _ => .ok 1
    devm_phy_create := .ok 0
    devm_of_phy_provider_register := .ok 0 }

/-- A device on which every request of `probe` succeeds, with a different clock behind
each of the five clock names and no "dr_role" property. -/
def dev_all_clocks : device :=
  { devm_kzalloc := true
    of_property_read_string := fun _ => none
    devm_platform_ioremap_resource_byname := fun name =>
      if name = "phy-reg" then .ok 0x1000 else .ok 0x2000
    devm_clk_get := fun id =>
      if id = "clk_axi" then .ok 1
      else if id = "clk_apb" then .ok 2
      else if id = "clk_125m" then .ok 3
      else if id = "clk_33k" then .ok 4
      else if id = "clk_12m" then .ok 5
      else .error (-2)
    devm_phy_create := .ok 0
    devm_of_phy_provider_register := .ok 0 }

end CV1800

/-! ## Part 2: `spacemit-cpufreq.c` -/

namespace Spacemit

/-- A `struct clk *` handle. -/
abbrev Clk := Nat

/-- A `struct device_node *`; `0` is the null pointer. -/
abbrev Node := Nat

def TURBO_FREQUENCY : Nat := 1600000000

def STABLE_FREQUENCY : Nat := 1200000000

/-- Modelled from the spec: the PRE_CHANGE phase tag, `CPUFREQ_PRECHANGE` of
`linux/cpufreq.h` (not in the driver source). -/
def CPUFREQ_PRECHANGE : Nat := 0

/-- Modelled from the spec: the POST_CHANGE phase tag, `CPUFREQ_POSTCHANGE` of
`linux/cpufreq.h` (not in the driver source). -/
def CPUFREQ_POSTCHANGE : Nat := 1

/-- Calls made by the notifiers into the clock framework, the device tree and the OPP
library, with their arguments. -/
inductive ClkCall where
  | of_clk_get_by_name (np : Node) (name : String)
  | of_property_read_u64_array (np : Node) (propname : String)
  | clk_get_parent (clk : Clk)
  | clk_get_rate (clk : Option Clk)
  | clk_set_rate (clk : Clk) (rate : Nat)
  | clk_put (clk : Clk)
  | dev_pm_opp_put_opp_table
deriving DecidableEq, Repr

/-- Answers of the platform.  The device tree is static: a clock lookup yields a handle
or `none` (an `ERR_PTR`), a one-element u64 property read yields the value or `none`
(non-zero return, destination untouched).  Clock topology and rates may change with
every call already made, so they are functions of the trace so far; a parent may be
`none` (null). -/
structure ClkEnv where
  of_clk_get_by_name : Node → String → Option Clk
  of_property_read_u64 : Node → String → Option Nat
  clk_get_parent : List ClkCall → Clk → Option Clk
  clk_get_rate : List ClkCall → Option Clk → Nat

/-- Modelled from the spec: the fields of `struct opp_table` (declared in
`drivers/opp/opp.h`, not in the driver source) used by the driver. -/
structure opp_table where
  np : Node
  clk : Clk
deriving DecidableEq, Repr

/-- Modelled from the spec: the fields of `struct cpufreq_freqs` (declared in
`linux/cpufreq.h`, not in the driver source) used by the driver; both are unsigned
32-bit values in kHz, so arithmetic on them is taken modulo `2 ^ 32`. -/
structure cpufreq_freqs where
  old : Nat
  new : Nat
deriving DecidableEq, Repr

def of_clk_get_by_name (env : ClkEnv) (np : Node) (name : String) (tr : List ClkCall) :
    Option Clk × List ClkCall :=
  (env.of_clk_get_by_name np name, tr ++ [ClkCall.of_clk_get_by_name np name])

/-- Modelled from the spec: `read_u64_property` (`of_property_read_u64_array` with one
element), not part of the driver source.  Reads into the local `rates` and returns its
new content, which is the old content when the read fails. -/
def of_property_read_u64_array (env : ClkEnv) (np : Node) (propname : String) (rates : Nat)
    (tr : List ClkCall) : Nat × List ClkCall :=
  ((env.of_property_read_u64 np propname).getD rates,
   tr ++ [ClkCall.of_property_read_u64_array np propname])

def clk_get_parent (env : ClkEnv) (clk : Clk) (tr : List ClkCall) :
    Option Clk × List ClkCall :=
  (env.clk_get_parent tr clk, tr ++ [ClkCall.clk_get_parent clk])

def clk_get_rate (env : ClkEnv) (clk : Option Clk) (tr : List ClkCall) :
    Nat × List ClkCall :=
  (env.clk_get_rate tr clk, tr ++ [ClkCall.clk_get_rate clk])

def clk_set_rate (clk : Clk) (rate : Nat) (tr : List ClkCall) : List ClkCall :=
  tr ++ [ClkCall.clk_set_rate clk rate]

def clk_put (clk : Clk) (tr : List ClkCall) : List ClkCall :=
  tr ++ [ClkCall.clk_put clk]

def dev_pm_opp_put_opp_table (tr : List ClkCall) : List ClkCall :=
  tr ++ [ClkCall.dev_pm_opp_put_opp_table]

/-- The policy notifier.  `cci_init` is the function-local `static int`; it is passed in
and returned (second component).  `rates` is the initial, indeterminate content of the
local of that name.  `opp_table` is the table `_find_opp_table` resolved. -/
def spacemit_policy_notifier (env : ClkEnv) (opp_table : opp_table) (rates : Nat)
    (cci_init : Int) (tr : List ClkCall) : Int × Int × List ClkCall :=
  if cci_init = 0 then
    let r := of_clk_get_by_name env opp_table.np "cci" tr
    match r.1 with
    | none => (0, cci_init, r.2)
    | some cci_clk =>
      let rd := of_property_read_u64_array env opp_table.np "cci-hz" rates r.2
      let tr := clk_set_rate cci_clk rd.1 rd.2
      let tr := clk_put cci_clk tr
      (0, 1, tr)
  else
    (0, cci_init, tr)

/-- The transition notifier.  `np` and `rates` are the initial, indeterminate contents of
the locals of those names: the function never assigns `np`, and assigns `rates` only
through successful property reads. -/
def spacemit_processor_notifier (env : ClkEnv) (opp_table : opp_table) (np : Node)
    (rates : Nat) (event : Nat) (freqs : cpufreq_freqs) (tr : List ClkCall) :
    Int × List ClkCall :=
  let r_tcm := of_clk_get_by_name env opp_table.np "tcm" tr
  let r_ace0 := of_clk_get_by_name env opp_table.np "ace0" r_tcm.2
  let r_ace1 := of_clk_get_by_name env opp_table.np "ace1" r_ace0.2
  let tcm_clk := r_tcm.1
  let ace0_clk := r_ace0.1
  let ace1_clk := r_ace1.1
  let tr := r_ace1.2
  let tr :=
    if event = CPUFREQ_PRECHANGE then
      let tr :=
        match ace0_clk with
        | some c =>
          let p := clk_get_parent env c tr
          let r := clk_get_rate env p.1 p.2
          clk_put c (clk_set_rate c (r.1 / 2) r.2)
        | none => tr
      let tr :=
        match ace1_clk with
        | some c =>
          let p := clk_get_parent env c tr
          let r := clk_get_rate env p.1 p.2
          clk_put c (clk_set_rate c (r.1 / 2) r.2)
        | none => tr
      let tr :=
        match tcm_clk with
        | some c =>
          let p := clk_get_parent env c tr
          let r := clk_get_rate env p.1 p.2
          clk_put c (clk_set_rate c (r.1 / 2) r.2)
        | none => tr
      if (freqs.new * 1000) % 2 ^ 32 ≥ TURBO_FREQUENCY then
        if (freqs.old * 1000) % 2 ^ 32 ≥ TURBO_FREQUENCY then
          clk_set_rate opp_table.clk STABLE_FREQUENCY tr
        else tr
      else tr
    else tr
  let st : Nat × List ClkCall :=
    if event = CPUFREQ_POSTCHANGE then
      let st : Nat × List ClkCall :=
        match tcm_clk with
        | some c =>
          let p := clk_get_parent env c tr
          let r := clk_get_rate env p.1 p.2
          let rd := of_property_read_u64_array env np "tcm-hz" rates r.2
          (rd.1, clk_put c (clk_set_rate c rd.1 rd.2))
        | none => (rates, tr)
      let st : Nat × List ClkCall :=
        match ace0_clk with
        | some c =>
          let p := clk_get_parent env c st.2
          let r := clk_get_rate env p.1 p.2
          let rd := of_property_read_u64_array env np "ace0-hz" st.1 r.2
          (rd.1, clk_put c (clk_set_rate c rd.1 rd.2))
        | none => st
      match ace1_clk with
      | some c =>
        let p := clk_get_parent env c st.2
        let r := clk_get_rate env p.1 p.2
        let rd := of_property_read_u64_array env np "ace1-hz" st.1 r.2
        (rd.1, clk_put c (clk_set_rate c rd.1 rd.2))
      | none => st
    else (rates, tr)
  (0, dev_pm_opp_put_opp_table st.2)

/-- One policy-attach notification: the platform as it is when the event is delivered,
the operating-point table the policy resolves to, and the indeterminate initial content
of the handler's local `rates`. -/
structure PolicyAttach where
  env : ClkEnv
  table : opp_table
  rates : Nat

/-- Delivers policy-attach events one after another, threading the static guard
`cci_init` and the trace; returns the final guard and trace. -/
def policy_attach_sequence : List PolicyAttach → Int → List ClkCall → Int × List ClkCall
  | [], cci_init, tr => (cci_init, tr)
  | ev :: rest, cci_init, tr =>
    let r := spacemit_policy_notifier ev.env ev.table ev.rates cci_init tr
    policy_attach_sequence rest r.2.1 r.2.2

/-- Whether a call is a `clk_set_rate`. -/
def is_set_rate : ClkCall → Bool
  | ClkCall.clk_set_rate _ _ => true
  | _ => false

/-- Whether the "cci" lookup of an event succeeds. -/
def cci_available (ev : PolicyAttach) : Bool :=
  (ev.env.of_clk_get_by_name ev.table.np "cci").isSome

/-- The lookup call an event issues while the guard is clear. -/
def cci_lookup_call (ev : PolicyAttach) : ClkCall :=
  ClkCall.of_clk_get_by_name ev.table.np "cci"

/-- Expected PRE_CHANGE calls for one dependent clock, given the trace `tr` so far: none
when the lookup failed; otherwise parent query, rate query, one set-rate to half the
parent rate, and the release. -/
def prechange_calls (env : ClkEnv) (tr : List ClkCall) : Option Clk → List ClkCall
  | none => []
  | some c =>
    [ClkCall.clk_get_parent c,
     ClkCall.clk_get_rate (env.clk_get_parent tr c),
     ClkCall.clk_set_rate c
       (env.clk_get_rate (tr ++ [ClkCall.clk_get_parent c]) (env.clk_get_parent tr c) / 2),
     ClkCall.clk_put c]

/-- The calls of the turbo step at the end of PRE_CHANGE, with the driver's 32-bit
comparison. -/
def turbo_downgrade_calls (table : opp_table) (freqs : cpufreq_freqs) : List ClkCall :=
  if (freqs.new * 1000) % 2 ^ 32 ≥ TURBO_FREQUENCY ∧
      (freqs.old * 1000) % 2 ^ 32 ≥ TURBO_FREQUENCY then
    [ClkCall.clk_set_rate table.clk STABLE_FREQUENCY]
  else []

/-- A platform without any of the dependent clocks. -/
def env_no_clocks : ClkEnv :=
  { of_clk_get_by_name := fun _ _ => none
    of_property_read_u64 := fun _ _ => none
    clk_get_parent := fun _ _ => none
    clk_get_rate := fun _ _ => 0 }

/-- Node 7 provides the clock "ace0" (handle 2) whose parent (handle 10) runs at
800 MHz; "ace1" and "tcm" are absent. -/
def env_ace0 : ClkEnv :=
  { of_clk_get_by_name := fun np name => if np = 7 ∧ name = "ace0" then some 2 else none
    of_property_read_u64 := fun _ _ => none
    clk_get_parent := fun _ _ => some 10
    clk_get_rate := fun _ _ => 800000000 }

/-- Node 7 provides the clock "tcm" (handle 1) and the property "tcm-hz" = 500 MHz;
no other node has clocks or properties. -/
def env_tcm : ClkEnv :=
  { of_clk_get_by_name := fun np name => if np = 7 ∧ name = "tcm" then some 1 else none
    of_property_read_u64 := fun np name =>
      if np = 7 ∧ name = "tcm-hz" then some 500000000 else none
    clk_get_parent := fun _ _ => some 10
    clk_get_rate := fun _ _ => 1000000000 }

/-- Node 7 provides the clocks "tcm" (handle 1) and "ace0" (handle 2) and the property
"tcm-hz" = 500 MHz, but no "ace0-hz". -/
def env_tcm_ace0 : ClkEnv :=
  { of_clk_get_by_name := fun np name =>
      if np = 7 ∧ name = "tcm" then some 1
      else if np = 7 ∧ name = "ace0" then some 2
      else none
    of_property_read_u64 := fun np name =>
      if np = 7 ∧ name = "tcm-hz" then some 500000000 else none
    clk_get_parent := fun _ _ => some 10
    clk_get_rate := fun _ _ => 1000000000 }

/-- Node 7 provides the clock "cci" (handle 3) and the property "cci-hz" = 614.4 MHz. -/
def env_cci : ClkEnv :=
  { of_clk_get_by_name := fun np name => if np = 7 ∧ name = "cci" then some 3 else none
    of_property_read_u64 := fun np name =>
      if np = 7 ∧ name = "cci-hz" then some 614400000 else none
    clk_get_parent := fun _ _ => none
    clk_get_rate := fun _ _ => 0 }

/-- Node 7 provides the clock "cci" (handle 3) but no "cci-hz" property. -/
def env_cci_no_hz : ClkEnv :=
  { of_clk_get_by_name := fun np name => if np = 7 ∧ name = "cci" then some 3 else none
    of_property_read_u64 := fun _ _ => none
    clk_get_parent := fun _ _ => none
    clk_get_rate := fun _ _ => 0 }

/-- Two policy attachments: at the first "cci" is available but "cci-hz" is absent and
the local `rates` happens to hold 3735928559; at the second "cci-hz" = 614.4 MHz is
present. -/
def attach_missing_hz : List PolicyAttach :=
  [{ env := env_cci_no_hz, table := { np := 7, clk := 9 }, rates := 3735928559 },
   { env := env_cci, table := { np := 7, clk := 9 }, rates := 0 }]

/-- Three policy attachments: "cci" not yet available, then available twice. -/
def attach_example : List PolicyAttach :=
  [{ env := env_no_clocks, table := { np := 7, clk := 9 }, rates := 0 },
   { env := env_cci, table := { np := 7, clk := 9 }, rates := 0 },
   { env := env_cci, table := { np := 7, clk := 9 }, rates := 0 }]

end Spacemit

/-! ## Theorems: PHY lifecycle (`phy-cv1800-usb.c`) -/

namespace CV1800

open cv1800_usb_phy_role

/-- C1: if the first `k` (`k ≤ 4`) calls of `clk_prepare_enable` made by
`cv1800_usb_phy_init` succeed and the next one returns `e ≠ 0`, then init returns `e`;
the calls it makes are exactly: the `k` successful enables in the order axi, apb, 125m,
33k, 12m, the failed enable of clock number `k`, and one disable for each of the `k`
enabled clocks in reverse order; none of them is a register write; and every clock has
the same enable count as before the call. -/
theorem init_rollback (priv : cv1800_usb_phy_priv) (w : PhyWorld) (k : Nat) (e : Int)
    (hk : k ≤ 4) (he : e ≠ 0)
    (hok : ∀ i, i < k → w.enable_result (w.n_enable + i) = 0)
    (hfail : w.enable_result (w.n_enable + k) = e) :
    (cv1800_usb_phy_init priv w).1 = e ∧
    (cv1800_usb_phy_init priv w).2.trace =
      w.trace
        ++ ((init_order priv).take k).map (fun c => PhyCall.clk_prepare_enable c 0)
        ++ [PhyCall.clk_prepare_enable ((init_order priv).getD k 0) e]
        ++ ((init_order priv).take k).reverse.map PhyCall.clk_disable_unprepare ∧
    (∀ v a, PhyCall.writel v a ∉ (cv1800_usb_phy_init priv w).2.trace.drop w.trace.length) ∧
    (∀ c, (cv1800_usb_phy_init priv w).2.enable_count c = w.enable_count c) := by
  interval_cases k
  · simp at hfail
    simp [cv1800_usb_phy_init, clk_prepare_enable, err_clk_axi, hfail, he, init_order]
  · have h0 := hok 0 (by norm_num)
    simp at h0
    simp [cv1800_usb_phy_init, clk_prepare_enable, clk_disable_unprepare, err_clk_axi,
      err_clk_apb, hfail, he, init_order, h0]
    intro c; split_ifs <;> omega
  · have h0 := hok 0 (by norm_num)
    have h1 := hok 1 (by norm_num)
    simp at h0
    simp [cv1800_usb_phy_init, clk_prepare_enable, clk_disable_unprepare, err_clk_axi,
      err_clk_apb, err_clk_125m, hfail, he, init_order, h0, h1]
    intro c; split_ifs <;> omega
  · have h0 := hok 0 (by norm_num)
    have h1 := hok 1 (by norm_num)
    have h2 := hok 2 (by norm_num)
    simp at h0
    simp [cv1800_usb_phy_init, clk_prepare_enable, clk_disable_unprepare, err_clk_axi,
      err_clk_apb, err_clk_125m, err_clk_33k, hfail, he, init_order, h0, h1, h2]
    intro c; split_ifs <;> omega
  · have h0 := hok 0 (by norm_num)
    have h1 := hok 1 (by norm_num)
    have h2 := hok 2 (by norm_num)
    have h3 := hok 3 (by norm_num)
    simp at h0
    simp [cv1800_usb_phy_init, clk_prepare_enable, clk_disable_unprepare, err_clk_axi,
      err_clk_apb, err_clk_125m, err_clk_33k, err_clk_12m, hfail, he, init_order, h0, h1, h2,
      h3]
    intro c; split_ifs <;> omega

/-- C1 at the input of the claim: axi and apb enable, 125m fails with `-5`; apb then axi
are disabled, 33k and 12m are never touched, and init returns `-5`. -/
theorem init_rollback_witness :
    (cv1800_usb_phy_init priv_example world_fail_third).1 = -5 ∧
    (cv1800_usb_phy_init priv_example world_fail_third).2.trace =
      [PhyCall.clk_prepare_enable 1 0, PhyCall.clk_prepare_enable 2 0,
       PhyCall.clk_prepare_enable 3 (-5),
       PhyCall.clk_disable_unprepare 2, PhyCall.clk_disable_unprepare 1] ∧
    (∀ c, (cv1800_usb_phy_init priv_example world_fail_third).2.enable_count c = 0) := by
  have h := init_rollback priv_example world_fail_third 2 (-5) (by decide) (by decide)
    (by intro i hi; interval_cases i <;> simp [world_fail_third])
    (by simp [world_fail_third])
  refine ⟨h.1, ?_, fun c => ?_⟩
  · rw [h.2.1]
    simp [world_fail_third, init_order, priv_example]
  · rw [h.2.2.2 c]
    rfl

/-- C2: when all five enables succeed, `cv1800_usb_phy_init` returns 0 and makes exactly
these calls: the five successful enables in the order axi, apb, 125m, 33k, 12m, followed
by one 32-bit write to the pin register of the value `0x40` (HOST) or `0xC0` (DEVICE),
which is bit 6 OR-ed with the role shifted left by 7; there is no disable. -/
theorem init_success (priv : cv1800_usb_phy_priv) (w : PhyWorld)
    (hall : ∀ i, i < 5 → w.enable_result (w.n_enable + i) = 0) :
    (cv1800_usb_phy_init priv w).1 = 0 ∧
    (cv1800_usb_phy_init priv w).2.trace =
      w.trace
        ++ (init_order priv).map (fun c => PhyCall.clk_prepare_enable c 0)
        ++ [PhyCall.writel
              (match priv.role with
               | CV1800_USB_PHY_HOST => 0x40
               | CV1800_USB_PHY_DEVICE => 0xC0) priv.pinreg] ∧
    (match priv.role with
     | CV1800_USB_PHY_HOST => 0x40
     | CV1800_USB_PHY_DEVICE => 0xC0) = (2 ^ 6 ||| (priv.role.val <<< 7)) := by
  have h0 := hall 0 (by norm_num)
  have h1 := hall 1 (by norm_num)
  have h2 := hall 2 (by norm_num)
  have h3 := hall 3 (by norm_num)
  have h4 := hall 4 (by norm_num)
  simp at h0
  cases hr : priv.role <;>
  simp [cv1800_usb_phy_init, clk_prepare_enable, cv1800_usb_phy_set_role, writel, init_order,
    h0, h1, h2, h3, h4, hr, CV1800_PIN_ID_OVERWRITE_EN, CV1800_PIN_ID_OVERWRITE_VALUE, BIT,
    cv1800_usb_phy_role.val]

/-- C2 on a DEVICE-role instance with all clocks enabling: five enables, then `0xC0` is
written to the pin register. -/
theorem init_success_witness :
    (cv1800_usb_phy_init priv_example world_all_ok).1 = 0 ∧
    (cv1800_usb_phy_init priv_example world_all_ok).2.trace =
      [PhyCall.clk_prepare_enable 1 0, PhyCall.clk_prepare_enable 2 0,
       PhyCall.clk_prepare_enable 3 0, PhyCall.clk_prepare_enable 4 0,
       PhyCall.clk_prepare_enable 5 0, PhyCall.writel 0xC0 0x2000] := by
  have h := init_success priv_example world_all_ok (by intro i _; rfl)
  refine ⟨h.1, ?_⟩
  rw [h.2.1]
  simp [world_all_ok, init_order, priv_example]

/-- C8: `cv1800_usb_phy_exit` returns 0 and makes exactly four calls, the disables of
33k, 125m, apb, axi in that order (no call on 12m, no register write).  Consequently,
when no clock is enabled, all five enables succeed and the 12m clock is none of the other
four, a successful init followed by exit leaves axi, apb, 125m and 33k with enable count
0 and 12m with enable count 1. -/
theorem exit_asymmetry (priv : cv1800_usb_phy_priv) (w : PhyWorld)
    (hidle : ∀ c, w.enable_count c = 0)
    (hall : ∀ i, i < 5 → w.enable_result (w.n_enable + i) = 0)
    (h12m : priv.clk_12m ∉ [priv.clk_axi, priv.clk_apb, priv.clk_125m, priv.clk_33k]) :
    (∀ w0 : PhyWorld, (cv1800_usb_phy_exit priv w0).1 = 0 ∧
      (cv1800_usb_phy_exit priv w0).2.trace =
        w0.trace ++ [PhyCall.clk_disable_unprepare priv.clk_33k,
                     PhyCall.clk_disable_unprepare priv.clk_125m,
                     PhyCall.clk_disable_unprepare priv.clk_apb,
                     PhyCall.clk_disable_unprepare priv.clk_axi]) ∧
    (cv1800_usb_phy_init priv w).1 = 0 ∧
    (∀ c ∈ [priv.clk_axi, priv.clk_apb, priv.clk_125m, priv.clk_33k],
      (cv1800_usb_phy_exit priv (cv1800_usb_phy_init priv w).2).2.enable_count c = 0) ∧
    (cv1800_usb_phy_exit priv (cv1800_usb_phy_init priv w).2).2.enable_count priv.clk_12m
      = 1 := by
  have h0 := hall 0 (by norm_num)
  have h1 := hall 1 (by norm_num)
  have h2 := hall 2 (by norm_num)
  have h3 := hall 3 (by norm_num)
  have h4 := hall 4 (by norm_num)
  simp at h0
  simp at h12m
  obtain ⟨ha, hb, hc, hd⟩ := h12m
  refine ⟨?_, ?_, ?_, ?_⟩
  · intro w0
    simp [cv1800_usb_phy_exit, clk_disable_unprepare]
  · simp [cv1800_usb_phy_init, clk_prepare_enable, h0, h1, h2, h3, h4]
  · intro c hmem
    simp [cv1800_usb_phy_init, cv1800_usb_phy_exit, clk_prepare_enable, clk_disable_unprepare,
      cv1800_usb_phy_set_role, writel, h0, h1, h2, h3, h4, hidle]
    simp at hmem
    split_ifs <;> simp_all
  · simp [cv1800_usb_phy_init, cv1800_usb_phy_exit, clk_prepare_enable, clk_disable_unprepare,
      cv1800_usb_phy_set_role, writel, h0, h1, h2, h3, h4, hidle, ha, hb, hc, hd]

/-- C8 on an instance with clocks 1..5: after init and exit clocks 1 to 4 are disabled
and clock 5 (12m) is still enabled. -/
theorem exit_asymmetry_witness :
    (∀ c ∈ [1, 2, 3, 4],
      (cv1800_usb_phy_exit priv_example
        (cv1800_usb_phy_init priv_example world_all_ok).2).2.enable_count c = 0) ∧
    (cv1800_usb_phy_exit priv_example
      (cv1800_usb_phy_init priv_example world_all_ok).2).2.enable_count 5 = 1 :=
  ⟨(exit_asymmetry priv_example world_all_ok (fun _ => rfl) (fun _ _ => rfl)
      (by decide)).2.2.1,
   (exit_asymmetry priv_example world_all_ok (fun _ => rfl) (fun _ _ => rfl)
      (by decide)).2.2.2⟩

theorem char_toNat_eq_zero (c : Char) (h : c.toNat = 0) : c = Char.ofNat 0 := by
  rw [← Char.ofNat_toNat c, h]

/-- On NUL-free strings `strcmp` returns 0 exactly for equal strings. -/
theorem strcmp_eq_zero_iff (a b : List Char)
    (ha : Char.ofNat 0 ∉ a) (hb : Char.ofNat 0 ∉ b) : strcmp a b = 0 ↔ a = b := by
  induction a generalizing b with
  | nil =>
    cases b with
    | nil => simp [strcmp]
    | cons y ys =>
      simp [strcmp]
      intro h
      have : y.toNat = 0 := by exact_mod_cast h
      exact hb (by simp [char_toNat_eq_zero y this])
  | cons x xs ih =>
    cases b with
    | nil =>
      simp [strcmp]
      intro h
      exact ha (by simp [char_toNat_eq_zero x h])
    | cons y ys =>
      simp only [strcmp]
      by_cases hxy : x = y
      · subst hxy
        simp only [if_true, List.cons.injEq, true_and]
        exact ih ys (fun h => ha (List.mem_cons_of_mem _ h))
          (fun h => hb (List.mem_cons_of_mem _ h))
      · simp only [hxy, if_false, List.cons.injEq, false_and, iff_false]
        intro h
        have h2 : (x.toNat : Int) = y.toNat := by omega
        have h3 : x.toNat = y.toNat := by exact_mod_cast h2
        exact hxy (by rw [← Char.ofNat_toNat x, ← Char.ofNat_toNat y, h3])

theorem parse_dt_some (priv : cv1800_usb_phy_priv) (dev : device) (s : String)
    (hq : dev.of_property_read_string "dr_role" = some s) (hn : Char.ofNat 0 ∉ s.toList) :
    cv1800b_usb_phy_parse_dt priv dev =
      if s = "host" then (0, { priv with role := CV1800_USB_PHY_HOST })
      else if s = "device" then (0, { priv with role := CV1800_USB_PHY_DEVICE })
      else (-EINVAL, priv) := by
  have h1 : strcmp s.toList "host".toList = 0 ↔ s = "host" := by
    rw [strcmp_eq_zero_iff _ _ hn (by decide)]
    exact ⟨fun h => String.ext h, fun h => by rw [h]⟩
  have h2 : strcmp s.toList "device".toList = 0 ↔ s = "device" := by
    rw [strcmp_eq_zero_iff _ _ hn (by decide)]
    exact ⟨fun h => String.ext h, fun h => by rw [h]⟩
  unfold cv1800b_usb_phy_parse_dt
  rw [hq]
  simp only [h1, h2]

/-- C7: for every result of reading "dr_role" (a C string, hence without an embedded
NUL, or absent), `cv1800b_usb_phy_parse_dt` returns 0 with role HOST iff the string is
"host"; returns 0 with role DEVICE iff the string is "device" or the property is absent;
and for any other string returns `-EINVAL` (`-22`) leaving the private structure, and so
the role, unassigned. -/
theorem parse_dt_role (priv : cv1800_usb_phy_priv) (dev : device)
    (hs : ∀ s, dev.of_property_read_string "dr_role" = some s → Char.ofNat 0 ∉ s.toList) :
    (((cv1800b_usb_phy_parse_dt priv dev).1 = 0 ∧
        (cv1800b_usb_phy_parse_dt priv dev).2.role = CV1800_USB_PHY_HOST) ↔
      dev.of_property_read_string "dr_role" = some "host") ∧
    (((cv1800b_usb_phy_parse_dt priv dev).1 = 0 ∧
        (cv1800b_usb_phy_parse_dt priv dev).2.role = CV1800_USB_PHY_DEVICE) ↔
      (dev.of_property_read_string "dr_role" = some "device" ∨
        dev.of_property_read_string "dr_role" = none)) ∧
    (dev.of_property_read_string "dr_role" ≠ some "host" →
      dev.of_property_read_string "dr_role" ≠ some "device" →
      dev.of_property_read_string "dr_role" ≠ none →
      cv1800b_usb_phy_parse_dt priv dev = (-22, priv)) := by
  cases hq : dev.of_property_read_string "dr_role" with
  | none => simp [cv1800b_usb_phy_parse_dt, hq]
  | some s =>
    rw [parse_dt_some priv dev s hq (hs s hq)]
    by_cases e1 : s = "host"
    · subst e1
      simp
    · by_cases e2 : s = "device"
      · subst e2
        simp
      · simp [e1, e2, EINVAL]

/-- C7 on a device whose "dr_role" is "host": the parse returns 0 with role HOST. -/
theorem parse_dt_role_witness :
    dev_host.of_property_read_string "dr_role" = some "host" ∧
    (cv1800b_usb_phy_parse_dt priv_example dev_host).1 = 0 ∧
    (cv1800b_usb_phy_parse_dt priv_example dev_host).2.role = CV1800_USB_PHY_HOST :=
  ⟨by simp [dev_host],
   (parse_dt_role priv_example dev_host
      (by
        intro s h
        have hs : s = "host" := by simpa [dev_host] using h.symm
        subst hs
        decide)).1.mpr (by simp [dev_host])⟩

/-- C9, evaluated on a device where all requests succeed and each of the five names
resolves to its own clock: probe asks for "clk_125m" twice and never for "clk_33k", so
the requested names are not pairwise distinct and `clk_33k` holds the handle of the 125m
clock (3) rather than that of "clk_33k" (4). -/
theorem probe_33k_filled_from_125m :
    cv1800_usb_phy_probe dev_all_clocks =
      (0, [ProbeCall.devm_platform_ioremap_resource_byname "phy-reg",
           ProbeCall.devm_platform_ioremap_resource_byname "pin-reg",
           ProbeCall.devm_clk_get "clk_axi",
           ProbeCall.devm_clk_get "clk_apb",
           ProbeCall.devm_clk_get "clk_125m",
           ProbeCall.devm_clk_get "clk_125m",
           ProbeCall.devm_clk_get "clk_12m",
           ProbeCall.devm_phy_create,
           ProbeCall.devm_of_phy_provider_register,
           ProbeCall.phy_set_drvdata
             { regs := 0x1000, pinreg := 0x2000, clk_axi := 1, clk_apb := 2, clk_125m := 3,
               clk_33k := 3, clk_12m := 5, role := CV1800_USB_PHY_DEVICE }]) ∧
    dev_all_clocks.devm_clk_get "clk_33k" = .ok 4 ∧
    "clk_33k" ∉ clk_names_requested (cv1800_usb_phy_probe dev_all_clocks).2 ∧
    ¬ (clk_names_requested (cv1800_usb_phy_probe dev_all_clocks).2).Nodup := by
  refine ⟨?_, ?_, ?_, ?_⟩ <;>
    simp [cv1800_usb_phy_probe, dev_all_clocks, cv1800b_usb_phy_parse_dt, priv_zero,
      clk_names_requested]

end CV1800

/-! ## Theorems: cpufreq notifiers (`spacemit-cpufreq.c`) -/

namespace Spacemit

/-- C3, evaluated: with old = new = 4,294,968 kHz (both at least 1,600,000 kHz and both
valid unsigned 32-bit values) the PRE_CHANGE handler makes no `clk_set_rate` call at
all, because `4294968 * 1000` wraps to `704` in 32-bit arithmetic; with
old = new = 1,600,000 kHz it does set the main clock (handle 9) to 1,200,000,000 Hz. -/
theorem turbo_rule_wraps :
    (1600000 ≤ 4294968 ∧ 4294968 < 2 ^ 32 ∧ (4294968 * 1000) % 2 ^ 32 = 704) ∧
    spacemit_processor_notifier env_no_clocks { np := 7, clk := 9 } 0 0 CPUFREQ_PRECHANGE
        { old := 4294968, new := 4294968 } [] =
      (0, [ClkCall.of_clk_get_by_name 7 "tcm", ClkCall.of_clk_get_by_name 7 "ace0",
           ClkCall.of_clk_get_by_name 7 "ace1", ClkCall.dev_pm_opp_put_opp_table]) ∧
    spacemit_processor_notifier env_no_clocks { np := 7, clk := 9 } 0 0 CPUFREQ_PRECHANGE
        { old := 1600000, new := 1600000 } [] =
      (0, [ClkCall.of_clk_get_by_name 7 "tcm", ClkCall.of_clk_get_by_name 7 "ace0",
           ClkCall.of_clk_get_by_name 7 "ace1", ClkCall.clk_set_rate 9 1200000000,
           ClkCall.dev_pm_opp_put_opp_table]) := by
  refine ⟨by norm_num, ?_, ?_⟩ <;>
  simp [spacemit_processor_notifier, env_no_clocks, of_clk_get_by_name, CPUFREQ_PRECHANGE,
    CPUFREQ_POSTCHANGE, TURBO_FREQUENCY, STABLE_FREQUENCY, dev_pm_opp_put_opp_table, clk_set_rate]

/-- Below the wrap-around point (frequencies of at most 4,294,967 kHz) the turbo step
sets the main clock to 1.2 GHz exactly when old and new are both at least
1,600,000 kHz. -/
theorem turbo_rule_below_wrap (table : opp_table) (freqs : cpufreq_freqs)
    (hnew : freqs.new ≤ 4294967) (hold : freqs.old ≤ 4294967) :
    turbo_downgrade_calls table freqs =
      if 1600000 ≤ freqs.new ∧ 1600000 ≤ freqs.old then
        [ClkCall.clk_set_rate table.clk 1200000000]
      else [] := by
  have h1 : (freqs.new * 1000) % 2 ^ 32 = freqs.new * 1000 := Nat.mod_eq_of_lt (by omega)
  have h2 : (freqs.old * 1000) % 2 ^ 32 = freqs.old * 1000 := Nat.mod_eq_of_lt (by omega)
  unfold turbo_downgrade_calls
  rw [h1, h2]
  have e : (freqs.new * 1000 ≥ TURBO_FREQUENCY ∧ freqs.old * 1000 ≥ TURBO_FREQUENCY) ↔
      (1600000 ≤ freqs.new ∧ 1600000 ≤ freqs.old) := by
    unfold TURBO_FREQUENCY
    constructor <;> rintro ⟨a, b⟩ <;> constructor <;> omega
  simp only [e, STABLE_FREQUENCY]

/-- C4: for every outcome of the three lookups, a PRE_CHANGE event returns 0 and makes
exactly these calls: the three lookups; then for ace0, ace1, tcm in that order, nothing
if the lookup failed and otherwise the parent query, its rate query, one `clk_set_rate`
to half (rounded down) of the parent rate just read, and `clk_put`; then the turbo step
and the release of the table. -/
theorem prechange_halving (env : ClkEnv) (table : opp_table) (np : Node) (rates : Nat)
    (freqs : cpufreq_freqs) (tr : List ClkCall) :
    spacemit_processor_notifier env table np rates CPUFREQ_PRECHANGE freqs tr =
      (0,
        let t0 := tr ++ [ClkCall.of_clk_get_by_name table.np "tcm",
                         ClkCall.of_clk_get_by_name table.np "ace0",
                         ClkCall.of_clk_get_by_name table.np "ace1"]
        let t1 := t0 ++ prechange_calls env t0 (env.of_clk_get_by_name table.np "ace0")
        let t2 := t1 ++ prechange_calls env t1 (env.of_clk_get_by_name table.np "ace1")
        let t3 := t2 ++ prechange_calls env t2 (env.of_clk_get_by_name table.np "tcm")
        t3 ++ turbo_downgrade_calls table freqs ++ [ClkCall.dev_pm_opp_put_opp_table]) := by
  by_cases hn : TURBO_FREQUENCY ≤ freqs.new * 1000 % 4294967296 ∧
      TURBO_FREQUENCY ≤ freqs.old * 1000 % 4294967296
  · obtain ⟨h1, h2⟩ := hn
    cases ha0 : env.of_clk_get_by_name table.np "ace0" <;>
    cases ha1 : env.of_clk_get_by_name table.np "ace1" <;>
    cases ht : env.of_clk_get_by_name table.np "tcm" <;>
    simp [spacemit_processor_notifier, of_clk_get_by_name, CPUFREQ_PRECHANGE,
      CPUFREQ_POSTCHANGE, dev_pm_opp_put_opp_table, clk_set_rate, clk_put, clk_get_parent,
      clk_get_rate, prechange_calls, turbo_downgrade_calls, ha0, ha1, ht, h1, h2]
  · have hn2 : TURBO_FREQUENCY ≤ freqs.new * 1000 % 4294967296 →
      ¬ TURBO_FREQUENCY ≤ freqs.old * 1000 % 4294967296 := fun h1 h2 => hn ⟨h1, h2⟩
    cases ha0 : env.of_clk_get_by_name table.np "ace0" <;>
    cases ha1 : env.of_clk_get_by_name table.np "ace1" <;>
    cases ht : env.of_clk_get_by_name table.np "tcm" <;>
    simp [spacemit_processor_notifier, of_clk_get_by_name, CPUFREQ_PRECHANGE,
      CPUFREQ_POSTCHANGE, dev_pm_opp_put_opp_table, clk_set_rate, clk_put, clk_get_parent,
      clk_get_rate, prechange_calls, turbo_downgrade_calls, ha0, ha1, ht, hn] <;>
    split_ifs with a b <;> first | exact absurd b (hn2 a) | rfl | simp

/-- C4 at the input of the claim: ace0 present with a parent at 800,000,000 Hz, ace1 and
tcm absent; ace0 is set to 400,000,000 Hz and released, and there is no call on ace1. -/
theorem prechange_halving_witness :
    spacemit_processor_notifier env_ace0 { np := 7, clk := 9 } 0 0 CPUFREQ_PRECHANGE
        { old := 1000000, new := 1200000 } [] =
      (0, [ClkCall.of_clk_get_by_name 7 "tcm", ClkCall.of_clk_get_by_name 7 "ace0",
           ClkCall.of_clk_get_by_name 7 "ace1",
           ClkCall.clk_get_parent 2, ClkCall.clk_get_rate (some 10),
           ClkCall.clk_set_rate 2 400000000, ClkCall.clk_put 2,
           ClkCall.dev_pm_opp_put_opp_table]) :=
  (prechange_halving env_ace0 { np := 7, clk := 9 } 0 0 { old := 1000000, new := 1200000 }
    []).trans (by simp [env_ace0, prechange_calls, turbo_downgrade_calls, TURBO_FREQUENCY])

/-- C5, evaluated: the table node (7) has "tcm-hz" = 500,000,000 and the tcm lookup on it
succeeds, but the POST_CHANGE handler reads "tcm-hz" from its never-assigned local `np`
(here null, with the local `rates` initially 0), so tcm is set to 0 Hz, not to
500,000,000 Hz. -/
theorem postchange_reads_unassigned_np :
    env_tcm.of_property_read_u64 7 "tcm-hz" = some 500000000 ∧
    spacemit_processor_notifier env_tcm { np := 7, clk := 9 } 0 0 CPUFREQ_POSTCHANGE
        { old := 1000000, new := 1200000 } [] =
      (0, [ClkCall.of_clk_get_by_name 7 "tcm", ClkCall.of_clk_get_by_name 7 "ace0",
           ClkCall.of_clk_get_by_name 7 "ace1",
           ClkCall.clk_get_parent 1, ClkCall.clk_get_rate (some 10),
           ClkCall.of_property_read_u64_array 0 "tcm-hz",
           ClkCall.clk_set_rate 1 0, ClkCall.clk_put 1,
           ClkCall.dev_pm_opp_put_opp_table]) := by
  refine ⟨by simp [env_tcm], ?_⟩
  simp [spacemit_processor_notifier, env_tcm, of_clk_get_by_name, CPUFREQ_PRECHANGE,
    CPUFREQ_POSTCHANGE, dev_pm_opp_put_opp_table, clk_set_rate, clk_put, clk_get_parent,
    clk_get_rate, of_property_read_u64_array]

/-- C10, evaluated: tcm and ace0 are available, the node that is read (7) has
"tcm-hz" = 500,000,000 and no "ace0-hz"; the POST_CHANGE handler sets tcm to
500,000,000 Hz and then, the failed read of "ace0-hz" going unchecked, also calls
`clk_set_rate` on ace0 with the value left over from tcm. -/
theorem postchange_absent_property_sets_stale_rate :
    env_tcm_ace0.of_property_read_u64 7 "ace0-hz" = none ∧
    spacemit_processor_notifier env_tcm_ace0 { np := 7, clk := 9 } 7 0 CPUFREQ_POSTCHANGE
        { old := 1000000, new := 1200000 } [] =
      (0, [ClkCall.of_clk_get_by_name 7 "tcm", ClkCall.of_clk_get_by_name 7 "ace0",
           ClkCall.of_clk_get_by_name 7 "ace1",
           ClkCall.clk_get_parent 1, ClkCall.clk_get_rate (some 10),
           ClkCall.of_property_read_u64_array 7 "tcm-hz",
           ClkCall.clk_set_rate 1 500000000, ClkCall.clk_put 1,
           ClkCall.clk_get_parent 2, ClkCall.clk_get_rate (some 10),
           ClkCall.of_property_read_u64_array 7 "ace0-hz",
           ClkCall.clk_set_rate 2 500000000, ClkCall.clk_put 2,
           ClkCall.dev_pm_opp_put_opp_table]) := by
  refine ⟨by simp [env_tcm_ace0], ?_⟩
  simp [spacemit_processor_notifier, env_tcm_ace0, of_clk_get_by_name, CPUFREQ_PRECHANGE,
    CPUFREQ_POSTCHANGE, dev_pm_opp_put_opp_table, clk_set_rate, clk_put, clk_get_parent,
    clk_get_rate, of_property_read_u64_array]

/-- Once the guard is non-zero, policy-attach events make no call and keep the guard. -/
theorem policy_sequence_guard_set (evs : List PolicyAttach) (g : Int) (hg : g ≠ 0)
    (tr : List ClkCall) : policy_attach_sequence evs g tr = (g, tr) := by
  induction evs generalizing tr with
  | nil => rfl
  | cons ev rest ih =>
    simp only [policy_attach_sequence, spacemit_policy_notifier, if_neg hg]
    exact ih tr

/-- While every lookup fails, each event only makes its lookup and the guard stays 0. -/
theorem policy_sequence_all_absent (evs : List PolicyAttach)
    (h : ∀ ev ∈ evs, cci_available ev = false) (tr : List ClkCall) :
    policy_attach_sequence evs 0 tr = (0, tr ++ evs.map cci_lookup_call) := by
  induction evs generalizing tr with
  | nil => simp [policy_attach_sequence]
  | cons ev rest ih =>
    have hev : ev.env.of_clk_get_by_name ev.table.np "cci" = none := by
      have := h ev (List.mem_cons_self _ _)
      simpa [cci_available] using this
    simp only [policy_attach_sequence, spacemit_policy_notifier, if_true, of_clk_get_by_name,
      hev]
    rw [ih (fun e he => h e (List.mem_cons_of_mem _ he))]
    simp [cci_lookup_call]

/-- The run up to and including the first event whose lookup succeeds. -/
theorem policy_sequence_first_present (pre post : List PolicyAttach) (ev : PolicyAttach)
    (c : Clk) (hpre : ∀ p ∈ pre, cci_available p = false)
    (hev : ev.env.of_clk_get_by_name ev.table.np "cci" = some c) (tr : List ClkCall) :
    policy_attach_sequence (pre ++ ev :: post) 0 tr =
      (1, tr ++ pre.map cci_lookup_call ++
        [ClkCall.of_clk_get_by_name ev.table.np "cci",
         ClkCall.of_property_read_u64_array ev.table.np "cci-hz",
         ClkCall.clk_set_rate c
           ((ev.env.of_property_read_u64 ev.table.np "cci-hz").getD ev.rates),
         ClkCall.clk_put c]) := by
  induction pre generalizing tr with
  | nil =>
    simp only [List.nil_append, policy_attach_sequence, spacemit_policy_notifier, if_true,
      of_clk_get_by_name, hev, of_property_read_u64_array, clk_set_rate, clk_put]
    rw [policy_sequence_guard_set _ 1 (by decide)]
    simp
  | cons p rest ih =>
    have hp : p.env.of_clk_get_by_name p.table.np "cci" = none := by
      have := hpre p (List.mem_cons_self _ _)
      simpa [cci_available] using this
    rw [List.cons_append]
    simp only [policy_attach_sequence, spacemit_policy_notifier, if_true,
      of_clk_get_by_name, hp]
    rw [ih (fun e he => hpre e (List.mem_cons_of_mem _ he))]
    simp [cci_lookup_call]

theorem exists_first_available (evs : List PolicyAttach) (h : evs.any cci_available = true) :
    ∃ pre ev post, evs = pre ++ ev :: post ∧ (∀ p ∈ pre, cci_available p = false) ∧
      cci_available ev = true := by
  induction evs with
  | nil => simp at h
  | cons e rest ih =>
    by_cases he : cci_available e = true
    · exact ⟨[], e, rest, rfl, by simp, he⟩
    · have hr : rest.any cci_available = true := by
        simp only [List.any_cons, Bool.or_eq_true] at h
        rcases h with h | h
        · exact absurd h he
        · exact h
      obtain ⟨pre, ev, post, h1, h2, h3⟩ := ih hr
      refine ⟨e :: pre, ev, post, by simp [h1], ?_, h3⟩
      intro p hp
      rcases List.mem_cons.mp hp with rfl | hp
      · simpa using he
      · exact h2 p hp

theorem filter_set_rate_lookups (l : List PolicyAttach) :
    (l.map cci_lookup_call).filter is_set_rate = [] := by
  induction l with
  | nil => rfl
  | cons a t ih => simp [cci_lookup_call, is_set_rate, ih]

/-- The once-only part of the CCI initialisation, for every finite sequence of
policy-attach events handled one after another from guard 0: the number of
`clk_set_rate` calls is 1 if some event finds "cci" and 0 otherwise; if `ev` is the first
event whose lookup succeeds (with handle `c`), the whole run consists of the failed
lookups before it followed by `ev` looking up "cci", reading "cci-hz", setting `c` to the
content of the local `rates` after that unchecked read, releasing `c`, and the guard ends
at 1, the later events making no call; if every lookup fails only lookups are made and
the guard ends at 0; and from guard 1 no event makes any call. -/
theorem cci_set_rate_once (evs : List PolicyAttach) :
    ((policy_attach_sequence evs 0 []).2.filter is_set_rate).length =
        (if evs.any cci_available then 1 else 0) ∧
    (∀ pre ev post c, evs = pre ++ ev :: post →
      (∀ p ∈ pre, cci_available p = false) →
      ev.env.of_clk_get_by_name ev.table.np "cci" = some c →
      policy_attach_sequence evs 0 [] =
        (1, pre.map cci_lookup_call ++
          [ClkCall.of_clk_get_by_name ev.table.np "cci",
           ClkCall.of_property_read_u64_array ev.table.np "cci-hz",
           ClkCall.clk_set_rate c
             ((ev.env.of_property_read_u64 ev.table.np "cci-hz").getD ev.rates),
           ClkCall.clk_put c])) ∧
    ((∀ ev ∈ evs, cci_available ev = false) →
      policy_attach_sequence evs 0 [] = (0, evs.map cci_lookup_call)) ∧
    (∀ tr, policy_attach_sequence evs 1 tr = (1, tr)) := by
  refine ⟨?_, ?_, ?_, ?_⟩
  · by_cases h : evs.any cci_available = true
    · obtain ⟨pre, ev, post, h1, h2, h3⟩ := exists_first_available evs h
      obtain ⟨c, hc⟩ := Option.isSome_iff_exists.mp h3
      rw [h1] at h ⊢
      rw [policy_sequence_first_present pre post ev c h2 hc, if_pos h]
      simp [List.filter_append, filter_set_rate_lookups, is_set_rate]
    · have hall : ∀ ev ∈ evs, cci_available ev = false := by
        intro ev hev
        by_contra hne
        exact h (List.any_eq_true.mpr ⟨ev, hev, by simpa using hne⟩)
      rw [policy_sequence_all_absent evs hall, if_neg h]
      simp [filter_set_rate_lookups]
  · intro pre ev post c h1 h2 h3
    rw [h1, policy_sequence_first_present pre post ev c h2 h3]
    simp
  · intro h
    rw [policy_sequence_all_absent evs h]
    simp
  · intro tr
    exact policy_sequence_guard_set evs 1 (by decide) tr

/-- Three attachments (cci absent, then present twice): one failed lookup, then the
second event sets cci (handle 3) to the "cci-hz" value 614,400,000 and releases it; the
third event makes no call. -/
theorem cci_set_rate_once_example :
    policy_attach_sequence attach_example 0 [] =
      (1, [ClkCall.of_clk_get_by_name 7 "cci",
           ClkCall.of_clk_get_by_name 7 "cci",
           ClkCall.of_property_read_u64_array 7 "cci-hz",
           ClkCall.clk_set_rate 3 614400000,
           ClkCall.clk_put 3]) :=
  ((cci_set_rate_once attach_example).2.1
      [{ env := env_no_clocks, table := { np := 7, clk := 9 }, rates := 0 }]
      { env := env_cci, table := { np := 7, clk := 9 }, rates := 0 }
      [{ env := env_cci, table := { np := 7, clk := 9 }, rates := 0 }]
      3 rfl (by simp [cci_available, env_no_clocks]) (by simp [env_cci])).trans
    (by simp [cci_lookup_call, env_cci])

/-- C6, evaluated: the first policy-attach event finds "cci" (handle 3) but its table has
no "cci-hz"; the read fails, its return value is not checked, and the handler still
calls `clk_set_rate` on cci with the uninitialised content of `rates` (3735928559 here),
releases the clock and sets the guard.  The second event, whose table does carry
"cci-hz" = 614,400,000, then makes no call, so the single set-rate does not use a value
read from "cci-hz" and the declared rate is never applied. -/
theorem cci_init_unchecked_read :
    env_cci_no_hz.of_clk_get_by_name 7 "cci" = some 3 ∧
    env_cci_no_hz.of_property_read_u64 7 "cci-hz" = none ∧
    env_cci.of_property_read_u64 7 "cci-hz" = some 614400000 ∧
    spacemit_policy_notifier env_cci_no_hz { np := 7, clk := 9 } 3735928559 0 [] =
      (0, 1, [ClkCall.of_clk_get_by_name 7 "cci",
              ClkCall.of_property_read_u64_array 7 "cci-hz",
              ClkCall.clk_set_rate 3 3735928559,
              ClkCall.clk_put 3]) ∧
    policy_attach_sequence attach_missing_hz 0 [] =
      (1, [ClkCall.of_clk_get_by_name 7 "cci",
           ClkCall.of_property_read_u64_array 7 "cci-hz",
           ClkCall.clk_set_rate 3 3735928559,
           ClkCall.clk_put 3]) := by
  refine ⟨by simp [env_cci_no_hz], by simp [env_cci_no_hz], by simp [env_cci], ?_, ?_⟩ <;>
  simp [attach_missing_hz, policy_attach_sequence, spacemit_policy_notifier, env_cci_no_hz,
    of_clk_get_by_name, of_property_read_u64_array, clk_set_rate, clk_put]

end Spacemit
